import Mathlib

/-!
Verification of the quiver dataset store (library / subject / item hierarchy over
columnar files).  The development shallowly embeds the write / append / partition /
schema subsystem of `src/quiver/subject.py` and `src/quiver/utils.py`:

* polars data types are the inductive `PolarsType` (time zones are drawn from a
  finite enumeration standing for the finite IANA zone database that polars
  validates against);
* a polars `DataFrame` is a column header list plus row-major values;
* the on-disk state of one subject directory is the structure `Subject`
  (items with their parquet files, the snapshot directory, the optional
  `quiver_schema.json`, and the `partition_on` / `sort_on` metadata keys);
* fallible operations return `Except QuiverError _`; every error modelled here is
  raised by the source before it mutates the directory, so an error result leaves
  the state unchanged (`stateAfter`).
* error constructors carry the specification taxonomy names for the corresponding
  `raise` sites of the source (the source raises builtin `ValueError` at each).

External collaborators (polars itself, the filesystem, the metadata JSON store)
are modelled at their interface boundary: `cast` retypes a column and is the
identity on the abstract value carrier, sorting is a stable insertion sort with
a total comparator on values, and the per-directory metadata document is not modelled
(no claim touches it).
-/

/-- Time unit of a polars temporal type (`ms` / `us` / `ns`). -/
inductive TimeUnit
  | ms
  | us
  | ns
  deriving DecidableEq, Repr

/-- Finite stand-in for the IANA time zone names that polars accepts for
`Datetime.time_zone` (polars validates the string against the zone database,
so the inhabited values form a fixed finite set; three representatives keep the
model finite and decidable). -/
inductive TZ
  | UTC
  | AmericaNewYork
  | EuropeLondon
  deriving DecidableEq, Repr

/-- The polars data types handled by `quiver/utils.py` (the numeric ladder,
booleans, strings/categoricals, temporal types and `Null`).  `Datetime` carries
its `time_unit` and optional `time_zone` parameters; `Duration` carries a
`time_unit` (it is the other polars type with a `time_unit` attribute, which is
exactly what `schema_to_dict` keys its parameterized branch on). -/
inductive PolarsType
  | Null
  | Boolean
  | Datetime (timeUnit : TimeUnit) (timeZone : Option TZ)
  | Date
  | Time
  | Categorical
  | Utf8
  | Int8
  | Int16
  | Int32
  | Int64
  | UInt8
  | UInt16
  | UInt32
  | UInt64
  | Float32
  | Float64
  | Duration (timeUnit : TimeUnit)
  deriving DecidableEq, Repr

/-- Abstract cell value of a column.  The claims below only inspect nullness, so
ints and strings are enough of a carrier; polars value conversion under `cast`
is a black box at this interface (§6 of the spec) and is modelled as the identity. -/
inductive Val
  | null
  | int (z : Int)
  | str (s : String)
  deriving DecidableEq, Repr

/-- Constructor rank used by the total comparator on values. -/
def Val.rank : Val → Nat
  | .null => 0
  | .int _ => 1
  | .str _ => 2

/-- Total boolean comparator on values (nulls first, then ints by order, then
strings by order); stands for the ordering polars uses when sorting a column. -/
def vle (a b : Val) : Bool :=
  match a, b with
  | .int x, .int y => decide (x ≤ y)
  | .str x, .str y => decide (x ≤ y)
  | a, b => decide (a.rank ≤ b.rank)

/-- Row-major model of a polars DataFrame: a list of `(column name, dtype)`
headers plus rows of values (row `r` holds the value of column `i` at index
`i`). -/
structure DataFrame where
  cols : List (String × PolarsType)
  rows : List (List Val)
  deriving DecidableEq, Repr

/-- The `df.columns` attribute: the column names in order. -/
def DataFrame.columnNames (df : DataFrame) : List String :=
  df.cols.map Prod.fst

/-- Values of the column named `c` (via its first header position), or `none`
when no such column exists. -/
def DataFrame.colValues (df : DataFrame) (c : String) : Option (List Val) :=
  (df.cols.findIdx? (fun p => p.1 = c)).map
    (fun i => df.rows.map (fun r => r.getD i .null))

/-! ## SchemaUnifier (`quiver/utils.py`, `suggest_subject_schema` and its inner
`get_most_permissive_type`) -/

/-- Membership in the `datetime_types` list of `get_most_permissive_type`;
in polars a parameterized `Datetime` instance compares equal to the bare
`pl.Datetime` entry of that list, so the membership test holds for every
datetime instance. -/
def is_datetime : PolarsType → Bool
  | .Datetime _ _ => true
  | _ => false

/-- The `numeric_types` widening ladder of `get_most_permissive_type`, in the
order declared by the source. -/
def numeric_types : List PolarsType :=
  [.Int8, .Int16, .Int32, .Int64, .UInt8, .UInt16, .UInt32, .UInt64,
   .Float32, .Float64]

/-- The signed-integer test (`type in [pl.Int8, pl.Int16, pl.Int32, pl.Int64]`). -/
def is_signed : PolarsType → Bool
  | .Int8 => true
  | .Int16 => true
  | .Int32 => true
  | .Int64 => true
  | _ => false

/-- Embeds the inner `get_precision` helper.  Its first branch tests
`t == pl.Datetime`; in polars an instantiated datetime compares equal to the
bare class, so for every datetime input the branch fires and yields `3` (the
`precisions` dictionary after it is dead for the inputs this helper receives). -/
def get_precision (t : PolarsType) : Nat :=
  if is_datetime t then 3
  else match t with
    | .Datetime .ms _ => 1
    | .Datetime .us _ => 2
    | .Datetime .ns _ => 3
    | _ => 3

/-- Faithful embedding of `get_most_permissive_type` (utils.py lines 401-464):
the pairwise conservative-widening unification used by `suggest_subject_schema`. -/
def get_most_permissive_type (type1 type2 : PolarsType) : PolarsType :=
  if type1 = .Null then type2
  else if type2 = .Null then type1
  else if type1 = type2 then type1
  else if type1 = .Boolean ∨ type2 = .Boolean then
    (if type1 = .Boolean ∧ type2 = .Boolean then .Boolean else .Utf8)
  else if is_datetime type1 ∨ is_datetime type2 then
    (if is_datetime type1 ∧ is_datetime type2 then
      (if get_precision type2 ≤ get_precision type1 then type1 else type2)
    else .Utf8)
  else if type1 = .Date ∨ type2 = .Date then
    (if type1 = .Date ∧ type2 = .Date then .Date else .Utf8)
  else if type1 = .Time ∨ type2 = .Time then
    (if type1 = .Time ∧ type2 = .Time then .Time else .Utf8)
  else if (type1 = .Categorical ∨ type1 = .Utf8) ∨ (type2 = .Categorical ∨ type2 = .Utf8) then
    .Utf8
  else if type1 ∈ numeric_types ∧ type2 ∈ numeric_types then
    (if is_signed type1 ≠ is_signed type2 then .Float64
     else numeric_types.getD (max (numeric_types.indexOf type1) (numeric_types.indexOf type2)) .Float64)
  else if type1 ∈ numeric_types ∨ type2 ∈ numeric_types then .Utf8
  else .Utf8

/-- A subject directory as `suggest_subject_schema` sees it: whether the path
exists (and is a directory), and the parquet files matching the glob pattern in
listing order, each with its already-parsed column schema.  Per-file read
failures (skipped with a warning by the source) are not modelled: every listed
file parses. -/
structure DirListing where
  dirOk : Bool
  files : List (String × List (String × PolarsType))
  deriving DecidableEq, Repr

/-- One unification step of the sampling loop: merge one file schema into the
accumulated suggestion (new columns are appended as-is, existing columns widen
through `get_most_permissive_type`). -/
def mergeFileSchema (acc fileSchema : List (String × PolarsType)) :
    List (String × PolarsType) :=
  fileSchema.foldl
    (fun acc2 p =>
      match acc2.lookup p.1 with
      | none => acc2 ++ [p]
      | some t0 =>
          acc2.map (fun q => if q.1 = p.1 then (q.1, get_most_permissive_type t0 p.2) else q))
    acc

/-- Embedding of `QuiverError`: the specification taxonomy names for the raise
sites of the source (each site raises a builtin `ValueError` there). -/
inductive QuiverError
  | AlreadyExistsError
  | PartitionColumnMissingError (cols : List String)
  | ColumnNotFoundError (col : String)
  | IndexError
  | ShapeError
  | ValueError (msg : String)
  deriving DecidableEq, Repr

/-- Decidable equality on `Except`, so that concrete runs of the fallible
operations can be checked by `decide`. -/
instance {ε α : Type} [DecidableEq ε] [DecidableEq α] : DecidableEq (Except ε α) :=
  fun a b =>
    match a, b with
    | .ok x, .ok y =>
        if h : x = y then .isTrue (by rw [h])
        else .isFalse (by intro hh; injection hh; exact h (by assumption))
    | .error e, .error f =>
        if h : e = f then .isTrue (by rw [h])
        else .isFalse (by intro hh; injection hh; exact h (by assumption))
    | .ok _, .error _ => .isFalse (by intro hh; exact Except.noConfusion hh)
    | .error _, .ok _ => .isFalse (by intro hh; exact Except.noConfusion hh)

/-- Faithful embedding of `suggest_subject_schema` (utils.py lines 353-481) with
the default `sample_fraction=0.1` and `max_files=100`: raises `ValueError` when
the subject path is missing, returns the EMPTY mapping when no file matches the
pattern, and otherwise folds `get_most_permissive_type` over the bounded sample
seeded with the first file. -/
def suggest_subject_schema (d : DirListing) :
    Except QuiverError (List (String × PolarsType)) :=
  if d.dirOk = false then
    .error (.ValueError "Subject path does not exist or is not a directory")
  else
    match d.files with
    | [] => .ok []
    | first :: rest =>
        let total := d.files.length
        let sampleSize := min (max 1 (total / 10)) (min 100 total)
        let sampleRest := rest.take (sampleSize - 1)
        .ok (sampleRest.foldl (fun acc f => mergeFileSchema acc f.2) first.2)

/-! ## Schema serialization (`quiver/utils.py`, `schema_to_dict` /
`dict_to_schema`) -/

/-- The apostrophe character (code 39) used by the serialized type descriptors. -/
def sqc : Char := Char.ofNat 39

/-- Wraps a string in the single quotes of the serialized parameter format. -/
def quoted (s : String) : String :=
  String.singleton sqc ++ s ++ String.singleton sqc

/-- Python `str(time_unit)` for the polars time units. -/
def tuStr : TimeUnit → String
  | .ms => "ms"
  | .us => "us"
  | .ns => "ns"

/-- The IANA name of a modelled time zone. -/
def tzStr : TZ → String
  | .UTC => "UTC"
  | .AmericaNewYork => "America/New_York"
  | .EuropeLondon => "Europe/London"

/-- Python `str(dtype)` for the non-parameterized branch of `dtype_to_str`
(`pl.Utf8` prints as its canonical alias `String`). -/
def plName : PolarsType → String
  | .Null => "Null"
  | .Boolean => "Boolean"
  | .Datetime _ _ => "Datetime"
  | .Date => "Date"
  | .Time => "Time"
  | .Categorical => "Categorical"
  | .Utf8 => "String"
  | .Int8 => "Int8"
  | .Int16 => "Int16"
  | .Int32 => "Int32"
  | .Int64 => "Int64"
  | .UInt8 => "UInt8"
  | .UInt16 => "UInt16"
  | .UInt32 => "UInt32"
  | .UInt64 => "UInt64"
  | .Float32 => "Float32"
  | .Float64 => "Float64"
  | .Duration _ => "Duration"

/-- Python `getattr(pl, name)` on a plain (non-parameterized) type name:
yields the polars type bound to that attribute, or fails (`AttributeError`,
modelled as `none`) when `pl` has no such attribute — in particular for any
string still carrying a parenthesized parameter list. -/
def plAttr : String → Option PolarsType
  | "Null" => some .Null
  | "Boolean" => some .Boolean
  | "Date" => some .Date
  | "Time" => some .Time
  | "Categorical" => some .Categorical
  | "String" => some .Utf8
  | "Utf8" => some .Utf8
  | "Int8" => some .Int8
  | "Int16" => some .Int16
  | "Int32" => some .Int32
  | "Int64" => some .Int64
  | "UInt8" => some .UInt8
  | "UInt16" => some .UInt16
  | "UInt32" => some .UInt32
  | "UInt64" => some .UInt64
  | "Float32" => some .Float32
  | "Float64" => some .Float64
  | _ => none

/-- The inner `dtype_to_str` of `schema_to_dict` (utils.py lines 115-121):
types with a `time_unit` attribute (the parameterized temporals) serialize as
`ClassName(time_unit=..., [time_zone=...])`; everything else as `str(dtype)`. -/
def dtype_to_str (t : PolarsType) : String :=
  match t with
  | .Datetime tu (some z) =>
      "Datetime(time_unit=" ++ quoted (tuStr tu) ++ ", time_zone=" ++ quoted (tzStr z) ++ ")"
  | .Datetime tu none =>
      "Datetime(time_unit=" ++ quoted (tuStr tu) ++ ")"
  | .Duration tu =>
      "Duration(time_unit=" ++ quoted (tuStr tu) ++ ")"
  | other => plName other

/-- `schema_to_dict` (utils.py lines 103-123): serializes every column type of
a schema mapping to its descriptor string. -/
def schema_to_dict (schema : List (String × PolarsType)) : List (String × String) :=
  schema.map (fun p => (p.1, dtype_to_str p.2))

/-- Word characters of the regular expression class `\w`. -/
def wordChar (c : Char) : Bool := c.isAlphanum || c = '_'

/-- Strips characters satisfying `p` from both ends of a character list
(Python `str.strip`). -/
def stripEnds (p : Char → Bool) (cs : List Char) : List Char :=
  ((cs.dropWhile p).reverse.dropWhile p).reverse

/-- Python `s.split(sep)` on a character list (splits on every occurrence,
keeping empty chunks). -/
def splitOnChar (sep : Char) : List Char → List (List Char)
  | [] => [[]]
  | c :: rest =>
      let r := splitOnChar sep rest
      if c = sep then [] :: r
      else
        match r with
        | [] => [[c]]
        | h :: t => (c :: h) :: t

/-- The regular expression match `re.match(r"(\w+)\((.+)\)", type_str)` of
`dict_to_schema`: a nonempty word prefix, an opening parenthesis, then (by the
greedy `(.+)\)`) everything up to the LAST closing parenthesis, which must be
nonempty.  Returns the two capture groups. -/
def parseTypeCall (s : String) : Option (String × List Char) :=
  let cs := s.toList
  let name := cs.takeWhile wordChar
  if name.isEmpty then none
  else
    match cs.drop name.length with
    | '(' :: inner =>
        match inner.reverse.findIdx? (fun c => c = ')') with
        | none => none
        | some j =>
            let i := inner.length - 1 - j
            if i = 0 then none
            else some (String.mk name, inner.take i)
    | _ => none

/-- One `param` of the parameter-parsing loop of `dict_to_schema`: strip
whitespace, require an equals sign, split on the first one, strip the value of
surrounding whitespace and then of surrounding quotes. -/
def parseParam (cs : List Char) : Option (String × String) :=
  let p := stripEnds Char.isWhitespace cs
  if p.contains '=' then
    let key := p.takeWhile (fun c => c ≠ '=')
    let value := p.drop (key.length + 1)
    some (String.mk (stripEnds Char.isWhitespace key),
          String.mk (stripEnds (fun c => c = sqc ∨ c = '"') (stripEnds Char.isWhitespace value)))
  else none

/-- The parameter dictionary built by `dict_to_schema` from the second capture
group: split on commas, keep the `key=value` chunks. -/
def parseParams (cs : List Char) : List (String × String) :=
  (splitOnChar ',' cs).filterMap parseParam

/-- Python dict lookup where the dictionary was filled by a loop (the last
assignment to a key wins). -/
def dictGet (k : String) (ps : List (String × String)) : Option String :=
  ps.reverse.lookup k

/-- Parses a serialized time unit; polars rejects anything outside
`ms`/`us`/`ns` (modelled as `none`). -/
def parseTimeUnit : String → Option TimeUnit
  | "ms" => some .ms
  | "us" => some .us
  | "ns" => some .ns
  | _ => none

/-- Parses a serialized time zone name; polars validates the name against the
IANA database (modelled by the finite `TZ` enumeration). -/
def parseTZ (s : String) : Option TZ :=
  if s = "UTC" then some .UTC
  else if s = "America/New_York" then some .AmericaNewYork
  else if s = "Europe/London" then some .EuropeLondon
  else none

/-- The constructor call `pl.Datetime(**params)` of `dict_to_schema`: rejects
unexpected keyword names (`TypeError`) and invalid unit or zone values;
`time_unit` defaults to `us`, `time_zone` to `None`. -/
def mkDatetime (ps : List (String × String)) : Option PolarsType :=
  if ps.all (fun p => p.1 = "time_unit" ∨ p.1 = "time_zone") then
    match (match dictGet "time_unit" ps with
           | none => some TimeUnit.us
           | some u => parseTimeUnit u) with
    | none => none
    | some tu =>
        match dictGet "time_zone" ps with
        | none => some (.Datetime tu none)
        | some z => (parseTZ z).map (fun tz => .Datetime tu (some tz))
  else none

/-- The inner `str_to_dtype` of `dict_to_schema` (utils.py lines 137-160):
when the descriptor matches `Name(params)` AND the name is `Datetime`, rebuild
the parameterized type; otherwise fall through to `getattr(pl, type_str)` on
the FULL descriptor string — which fails for every other parameterized
serialization (the source marks the gap with a comment: "Add other
parameterized types here if needed"). -/
def str_to_dtype (s : String) : Option PolarsType :=
  match parseTypeCall s with
  | some (name, paramsStr) =>
      if name = "Datetime" then mkDatetime (parseParams paramsStr)
      else plAttr s
  | none => plAttr s

/-- `dict_to_schema` (utils.py lines 125-162): parses every descriptor back to
a polars type; a failing descriptor aborts the whole conversion (the source
raises there), modelled as `none`. -/
def dict_to_schema (d : List (String × String)) :
    Option (List (String × PolarsType)) :=
  match d with
  | [] => some []
  | p :: rest =>
      match str_to_dtype p.2 with
      | none => none
      | some t =>
          match dict_to_schema rest with
          | none => none
          | some r => some ((p.1, t) :: r)

/-! ## Subject state and the write / append paths (`quiver/subject.py`) -/

/-- On-disk state of one subject directory, together with the cached attributes
the `Subject` constructor derives from it: the items (each an association list
from parquet file path, relative to the item directory, to file content), the
snapshot directory listing, the parsed `quiver_schema.json` (or `none` when the
file does not exist), and the `partition_on` / `sort_on` metadata keys. -/
structure Subject where
  items : List (String × List (String × DataFrame))
  snapshots : List String
  schemaFile : Option (List (String × PolarsType))
  partition_on : Option (List String)
  sort_on : Option String
  deriving DecidableEq, Repr

/-- `utils.read_subject_schema` (utils.py lines 164-183): the parsed schema
file, or the EMPTY dict when `quiver_schema.json` does not exist — note that it
never returns Python `None`. -/
def read_subject_schema (st : Subject) : List (String × PolarsType) :=
  st.schemaFile.getD []

/-- The `self.schema` attribute set by `Subject.__init__`: the (always
non-`None`) result of `read_subject_schema`, typed as the nullable Python
variable that `full_subject` later compares against `None`. -/
def Subject.schemaAttr (st : Subject) : Option (List (String × PolarsType)) :=
  some (read_subject_schema st)

/-- Whether the item directory exists (`utils.path_exists(i_path)`). -/
def itemExists (st : Subject) (item : String) : Bool :=
  (st.items.lookup item).isSome

/-- The parquet files found under an item directory by the recursive glob
`i_path.glob("**/*.parquet")`, in listing order; the glob of a non-existent
directory yields the empty list. -/
def itemFiles (st : Subject) (item : String) : List (String × DataFrame) :=
  (st.items.lookup item).getD []

/-- Replaces (or creates) the whole file set of an item directory: the effect
of `write`, which either starts from a fresh directory or first `rmtree`s the
existing one when overwriting. -/
def setItem (st : Subject) (item : String) (files : List (String × DataFrame)) :
    Subject :=
  if (st.items.lookup item).isSome then
    { st with items := st.items.map (fun p => if p.1 = item then (item, files) else p) }
  else
    { st with items := st.items ++ [(item, files)] }

/-- Whether a particular file exists inside an item directory
(`utils.path_exists(a_path)` / `parquet_path.exists()`). -/
def fileExists (st : Subject) (item file : String) : Bool :=
  ((itemFiles st item).lookup file).isSome

/-- Content of a file inside an item directory (`pl.read_parquet`); only ever
used behind a `fileExists` test. -/
def getFile (st : Subject) (item file : String) : DataFrame :=
  ((itemFiles st item).lookup file).getD ⟨[], []⟩

/-- Writes one file inside an item directory, replacing it if it already
exists (`write_parquet` to a single path). -/
def setFile (st : Subject) (item file : String) (df : DataFrame) : Subject :=
  let files := itemFiles st item
  let files2 :=
    if (files.lookup file).isSome then
      files.map (fun p => if p.1 = file then (file, df) else p)
    else files ++ [(file, df)]
  setItem st item files2

/-- Exception semantics of the Python methods: an `Except.error` result models
an exception propagating out of a call that has not yet touched the directory,
so the state after the call is the unchanged input state. -/
def stateAfter (st : Subject) (r : Except QuiverError Subject) : Subject :=
  match r with
  | .ok st2 => st2
  | .error _ => st

/-- `df.with_columns(pl.col(col).cast(dtype))` at the header level: retypes
every header named `col`; the value carrier is abstract, so the cast leaves the
stored values unchanged (no claim depends on converted representations). -/
def DataFrame.castColumn (df : DataFrame) (c : String) (dt : PolarsType) : DataFrame :=
  { cols := df.cols.map (fun p => if p.1 = c then (p.1, dt) else p),
    rows := df.rows }

/-- `df.with_columns(pl.lit(None).cast(dtype).alias(col))`: appends a new
column of the given type whose value is null in every row. -/
def DataFrame.withNullColumn (df : DataFrame) (c : String) (dt : PolarsType) : DataFrame :=
  { cols := df.cols ++ [(c, dt)],
    rows := df.rows.map (fun r => r ++ [Val.null]) }

/-- The schema-enforcement loop of `Subject.write` (subject.py lines 220-226):
for each declared column in order, add it as a typed-null column when absent
from the (accumulated) frame, else cast it to the declared type. -/
def apply_schema (schema : List (String × PolarsType)) (df : DataFrame) : DataFrame :=
  schema.foldl
    (fun acc p =>
      if p.1 ∈ acc.columnNames then acc.castColumn p.1 p.2
      else acc.withNullColumn p.1 p.2)
    df

/-- Row order used by `df.sort(c)` once the sort column has been resolved to
header position `i`. -/
def rowLe (i : Nat) (r1 r2 : List Val) : Prop :=
  vle (r1.getD i .null) (r2.getD i .null) = true

instance (i : Nat) : DecidableRel (rowLe i) :=
  fun r1 r2 => instDecidableEqBool (vle (r1.getD i .null) (r2.getD i .null)) true

/-- `df.sort(c)`: stable sort of the rows by the value in column `c`;
raises (polars `ColumnNotFoundError`) when no such column exists. -/
def DataFrame.sortBy (df : DataFrame) (c : String) : Except QuiverError DataFrame :=
  match df.cols.findIdx? (fun p => p.1 = c) with
  | none => .error (.ColumnNotFoundError c)
  | some i =>
      .ok { df with rows := df.rows.insertionSort (rowLe i) }

/-- `pl.concat([d1, d2])` (default vertical concatenation): requires the two
frames to share one header list and stacks the rows. -/
def DataFrame.concat (d1 d2 : DataFrame) : Except QuiverError DataFrame :=
  if d1.cols = d2.cols then .ok { cols := d1.cols, rows := d1.rows ++ d2.rows }
  else .error .ShapeError

/-- Hive path fragment for one partition value (`f"{col}={value}"`); a null
partition value is written under the conventional default-partition name. -/
def valStr : Val → String
  | .null => "__HIVE_DEFAULT_PARTITION__"
  | .int z => toString z
  | .str s => s

/-- The partition-key tuple of one row for the declared partition columns. -/
def keyOfRow (df : DataFrame) (ps : List String) (r : List Val) : List Val :=
  ps.map (fun c =>
    match df.cols.findIdx? (fun p => p.1 = c) with
    | some i => r.getD i .null
    | none => .null)

/-- Distinct partition-key tuples in order of first appearance (the groups of
`df.group_by(partition_on)`, with deterministic first-appearance order standing
for the unspecified polars group order — no claim depends on the order). -/
def distinctKeys (df : DataFrame) (ps : List String) : List (List Val) :=
  df.rows.foldl
    (fun acc r => let k := keyOfRow df ps r; if k ∈ acc then acc else acc ++ [k])
    []

/-- Relative file path of one hive partition
(`"col1=v1/col2=v2/00000000.parquet"`). -/
def hivePath (ps : List String) (key : List Val) : String :=
  String.intercalate "/" ((ps.zip key).map (fun p => p.1 ++ "=" ++ valStr p.2)) ++
    "/00000000.parquet"

/-- The hive-partitioned file set written by
`df.write_parquet(i_path, partition_by=partition_on)`: one file per distinct
key tuple holding that group's rows.  (The model keeps the partition columns in
the file content; no claim inspects hive file column sets.) -/
def hiveFiles (ps : List String) (df : DataFrame) : List (String × DataFrame) :=
  (distinctKeys df ps).map (fun k =>
    (hivePath ps k, { cols := df.cols, rows := df.rows.filter (fun r => keyOfRow df ps r = k) }))

/-- `Subject.write` (subject.py lines 189-272).  In source order: fail with the
already-exists error when the item directory exists and `overwrite` is false;
resolve the effective schema (explicit argument, else the subject schema when
truthy) and apply it; sort by the explicit `sort_on`, else the subject
`sort_on`; when the subject declares `partition_on`, fail with the
partition-column error naming every column absent from the (schema-applied)
frame, else write the hive file set; otherwise write the single file
`00000000.parquet`.  The metadata side-file merge and the in-memory item-set
update are outside the modelled claims. -/
def Subject.write (st : Subject) (item : String) (df : DataFrame)
    (overwrite : Bool) (sortArg : Option String)
    (schemaArg : Option (List (String × PolarsType))) :
    Except QuiverError Subject :=
  if itemExists st item = true ∧ overwrite = false then
    .error .AlreadyExistsError
  else
    let schemaVar : Option (List (String × PolarsType)) :=
      if schemaArg = none ∧ read_subject_schema st ≠ [] then
        some (read_subject_schema st)
      else schemaArg
    let df1 : DataFrame :=
      match schemaVar with
      | some s => if s ≠ [] then apply_schema s df else df
      | none => df
    do
      let df2 ←
        match sortArg with
        | some c => DataFrame.sortBy df1 c
        | none =>
            match st.sort_on with
            | some c => DataFrame.sortBy df1 c
            | none => pure df1
      match st.partition_on with
      | some ps =>
          let missing := ps.filter (fun c => c ∉ df2.columnNames)
          if missing ≠ [] then .error (.PartitionColumnMissingError missing)
          else pure (setItem st item (hiveFiles ps df2))
      | none => pure (setItem st item [("00000000.parquet", df2)])

/-- The per-group body of the partitioned branch of `Subject.append`: read the
existing file at the group key path if present, concatenate, sort by the
resolved sort column, rewrite that one file. -/
def appendHive (st : Subject) (item : String) (ps : List String) (df : DataFrame)
    (sortOn : Option String) : Except QuiverError Subject :=
  (distinctKeys df ps).foldlM
    (fun acc k => do
      let path := hivePath ps k
      let group : DataFrame :=
        { cols := df.cols, rows := df.rows.filter (fun r => keyOfRow df ps r = k) }
      let combined ←
        if fileExists acc item path then DataFrame.concat (getFile acc item path) group
        else pure group
      let sorted ←
        match sortOn with
        | some c => DataFrame.sortBy combined c
        | none => pure combined
      pure (setFile acc item path sorted))
    st

/-- `Subject.append` (subject.py lines 274-368).  Resolves `sort_on` (argument,
else the subject default).  Partitioned: fail with the partition-column error
naming every absent column, else merge group by group.  Non-partitioned: glob
the item files; when more than one file exists target the dedicated
`appended_data.parquet`, else index the single glob hit — an index error when
the glob found nothing; concatenate with the target file when it exists, sort,
rewrite.  The non-fatal size warning print is outside the state. -/
def Subject.append (st : Subject) (item : String) (df : DataFrame)
    (sortArg : Option String) : Except QuiverError Subject :=
  let sortOn : Option String :=
    match sortArg with
    | none => st.sort_on
    | some c => some c
  match st.partition_on with
  | some ps =>
      let missing := ps.filter (fun c => c ∉ df.columnNames)
      if missing ≠ [] then .error (.PartitionColumnMissingError missing)
      else appendHive st item ps df sortOn
  | none =>
      let files := itemFiles st item
      do
        let aPath : String ←
          if files.length > 1 then pure "appended_data.parquet"
          else
            match files with
            | [] => .error .IndexError
            | f :: _ => pure f.1
        let combined ←
          if fileExists st item aPath then DataFrame.concat (getFile st item aPath) df
          else pure df
        let combined2 ←
          match sortOn with
          | some c => DataFrame.sortBy combined c
          | none => pure combined
        pure (setFile st item aPath combined2)

/-- A lazy scan handle (`pl.scan_parquet(pattern, schema=...)`): no error is
raised at construction, validation being deferred to materialization. -/
structure LazyView where
  pat : String
  viewSchema : List (String × PolarsType)
  deriving DecidableEq, Repr

/-- `Subject.full_subject` (subject.py lines 121-131): raises when the cached
`self.schema` attribute is Python `None`, else returns the whole-subject lazy
scan carrying that schema. -/
def Subject.full_subject (st : Subject) : Except QuiverError LazyView :=
  match Subject.schemaAttr st with
  | none => .error (.ValueError "No schema found. Use set_schema(item) to set the golden schema")
  | some sch => .ok { pat := "**/*.parquet", viewSchema := sch }

/-- `Subject.list_snapshots` (subject.py lines 386-389): the snapshot
directory listing. -/
def Subject.list_snapshots (st : Subject) : List String :=
  st.snapshots

/-- `Subject.delete_snapshot` (subject.py lines 391-413) with the interactive
confirmation prompt factored out (§1 of the spec scopes prompts to an external
collaborator; this is the confirmed path).  Returns `True` immediately when
the name is not a current snapshot, else removes that snapshot directory and
rescans. -/
def Subject.delete_snapshot (st : Subject) (snapshot : String) : Bool × Subject :=
  if snapshot ∉ st.snapshots then
    (true, st)
  else
    (true, { st with snapshots := st.snapshots.filter (fun s => s ≠ snapshot) })

/-- Eager materialization of one item (`scan_parquet("**/*.parquet").collect()`
over the item directory): all file rows stacked in listing order, under the
header list of the first file. -/
def materializeItem (st : Subject) (item : String) : DataFrame :=
  { cols := (((itemFiles st item).head?).map (fun f => f.2.cols)).getD [],
    rows := (itemFiles st item).foldl (fun acc f => acc ++ f.2.rows) [] }

/-- Whether a polars type is a `Duration` (the parameterized temporal type that
`schema_to_dict` serializes but `dict_to_schema` cannot rebuild). -/
def is_duration : PolarsType → Bool
  | .Duration _ => true
  | _ => false

/-- Column names of the single file written by a non-partitioned `write`, read
back out of the resulting state (`none` when the write failed or no such file
exists). -/
def writtenFileCols (r : Except QuiverError Subject) (item file : String) :
    Option (List String) :=
  match r with
  | .ok st => ((itemFiles st item).lookup file).map DataFrame.columnNames
  | .error _ => none

/-- The frame actually written by a default-argument `write` call
(`schema=None`): the subject schema is applied when it is truthy (non-empty),
else the input passes through untouched. -/
def effectiveFrame (st : Subject) (df : DataFrame) : DataFrame :=
  if read_subject_schema st ≠ [] then apply_schema (read_subject_schema st) df
  else df

/-- Two-column test frame over a sort column `k` and a payload column `v`,
one row per pair. -/
def rowDf (rows : List (Int × Int)) : DataFrame :=
  { cols := [("k", .Int64), ("v", .Int64)],
    rows := rows.map (fun p => [.int p.1, .int p.2]) }

/-- An empty subject with no partition key and declared sort column `k`
(the C3 scenario). -/
def subjC3 : Subject := ⟨[], [], none, none, some "k"⟩

/-! ## Helper lemmas -/

/-- Per-type round-trip of the descriptor serialization: every modelled type
except `Duration` parses back to itself. -/
theorem str_to_dtype_roundtrip (t : PolarsType) (h : is_duration t = false) :
    str_to_dtype (dtype_to_str t) = some t := by
  cases t
  case Datetime tu tz =>
    cases tu <;> rcases tz with _ | z <;> first | decide | (cases z <;> decide)
  case Duration tu => simp [is_duration] at h
  all_goals decide

/-! ## Claim theorems -/

/-- C5: the pairwise type unification of the SchemaUnifier maps
(int32, int64) to int64, (int32, string) to string and (null, float64) to
float64; in general null defers to the other type, two numeric types of the
same signedness widen to the larger of the two in the declared ladder order,
and a numeric type paired with a string falls back to string. -/
theorem C5_pairwise_unification (t t1 t2 u : PolarsType)
    (h1 : t1 ∈ numeric_types) (h2 : t2 ∈ numeric_types)
    (hs : is_signed t1 = is_signed t2) (hu : u ∈ numeric_types) :
    get_most_permissive_type .Int32 .Int64 = .Int64 ∧
    get_most_permissive_type .Int32 .Utf8 = .Utf8 ∧
    get_most_permissive_type .Null .Float64 = .Float64 ∧
    get_most_permissive_type .Null t = t ∧
    get_most_permissive_type t .Null = t ∧
    get_most_permissive_type t1 t2 =
      numeric_types.getD
        (max (numeric_types.indexOf t1) (numeric_types.indexOf t2)) .Float64 ∧
    get_most_permissive_type u .Utf8 = .Utf8 ∧
    get_most_permissive_type .Utf8 u = .Utf8 := by
  refine ⟨by decide, by decide, by decide, ?_, ?_, ?_, ?_, ?_⟩
  · simp [get_most_permissive_type]
  · by_cases hn : t = .Null <;> simp [get_most_permissive_type, hn]
  · simp only [numeric_types] at h1 h2
    fin_cases h1 <;> fin_cases h2 <;> revert hs <;> decide
  · simp only [numeric_types] at hu
    fin_cases hu <;> decide
  · simp only [numeric_types] at hu
    fin_cases hu <;> decide

/-- Witness for C5 at concrete types (boolean for the null rules, an unsigned
int paired with a float for the widening rule, int8 for the string rule). -/
theorem C5_witness :
    get_most_permissive_type .Int32 .Int64 = .Int64 ∧
    get_most_permissive_type .Int32 .Utf8 = .Utf8 ∧
    get_most_permissive_type .Null .Float64 = .Float64 ∧
    get_most_permissive_type .Null .Boolean = .Boolean ∧
    get_most_permissive_type .Boolean .Null = .Boolean ∧
    get_most_permissive_type .UInt8 .Float32 =
      numeric_types.getD
        (max (numeric_types.indexOf .UInt8) (numeric_types.indexOf .Float32)) .Float64 ∧
    get_most_permissive_type .Int8 .Utf8 = .Utf8 ∧
    get_most_permissive_type .Utf8 .Int8 = .Utf8 :=
  C5_pairwise_unification .Boolean .UInt8 .Float32 .Int8
    (by decide) (by decide) (by decide) (by decide)

/-- C6 (amended): on a directory with no matching files the SchemaUnifier does
NOT signal failure — it returns the empty mapping; the only failure it signals
is for a subject path that does not exist or is not a directory. -/
theorem C6_no_files_empty_schema (d : DirListing) :
    (d.dirOk = false →
      suggest_subject_schema d =
        .error (.ValueError "Subject path does not exist or is not a directory")) ∧
    (d.dirOk = true → d.files = [] → suggest_subject_schema d = .ok []) := by
  constructor
  · intro h
    simp [suggest_subject_schema, h]
  · intro h1 h2
    simp [suggest_subject_schema, h1, h2]

/-- Witness for C6: the two branches at concrete directories. -/
theorem C6_witness :
    suggest_subject_schema ⟨false, []⟩ =
      .error (.ValueError "Subject path does not exist or is not a directory") ∧
    suggest_subject_schema ⟨true, []⟩ = .ok [] :=
  ⟨(C6_no_files_empty_schema ⟨false, []⟩).1 rfl,
   (C6_no_files_empty_schema ⟨true, []⟩).2 rfl rfl⟩

/-- Counterexample for C6 as stated: a directory that exists but contains no
matching files makes `suggest_subject_schema` return the empty schema mapping
successfully instead of signalling failure. -/
theorem C6_counterexample :
    suggest_subject_schema ⟨true, []⟩ = .ok [] ∧
    (suggest_subject_schema ⟨true, []⟩).isOk = true := by
  exact ⟨by decide, by decide⟩

/-- C7 (code bug): `full_subject` can never fail.  `read_subject_schema`
returns the EMPTY dict (never Python `None`) for a subject without a
`quiver_schema.json`, so the guard `if self.schema is None` in `full_subject`
is dead and the method returns a lazy scan carrying the empty schema instead of
raising the documented "No schema found" error. -/
theorem C7_full_subject_never_fails (st : Subject) :
    Subject.full_subject st = .ok ⟨"**/*.parquet", read_subject_schema st⟩ := rfl

/-- C8 (amended): parse-after-serialize is the identity on every schema whose
column types are not `Duration`-style parameterized types — i.e. on all
non-parameterized types and on `Datetime` with any time unit and optional time
zone; `Duration` serializes but does not parse back. -/
theorem C8_schema_roundtrip (s : List (String × PolarsType))
    (h : ∀ p ∈ s, is_duration p.2 = false) :
    dict_to_schema (schema_to_dict s) = some s := by
  induction s with
  | nil => rfl
  | cons p rest ih =>
      have h1 : is_duration p.2 = false := h p (List.mem_cons_self p rest)
      have h2 : ∀ q ∈ rest, is_duration q.2 = false :=
        fun q hq => h q (List.mem_cons_of_mem p hq)
      have ih2 := ih h2
      simp only [schema_to_dict] at ih2
      simp [schema_to_dict, dict_to_schema, str_to_dtype_roundtrip p.2 h1, ih2]

/-- Witness for C8: a schema with a parameterized timestamp (nanosecond
precision, UTC zone) and a plain integer column round-trips exactly. -/
theorem C8_witness :
    dict_to_schema (schema_to_dict
      [("ts", .Datetime .ns (some .UTC)), ("x", .Int64)]) =
    some [("ts", .Datetime .ns (some .UTC)), ("x", .Int64)] :=
  C8_schema_roundtrip [("ts", .Datetime .ns (some .UTC)), ("x", .Int64)] (by decide)

/-- Counterexample for C8 as stated: a `Duration` column serializes (to
`Duration(time_unit=...)`) but `dict_to_schema` fails to parse it back, so
parse-after-serialize is not the identity on every serializable schema. -/
theorem C8_counterexample :
    dict_to_schema (schema_to_dict [("a", .Duration .us)]) ≠
      some [("a", .Duration .us)] := by decide

/-- C9: deleting a snapshot always reports success; a non-existent name leaves
the state untouched (idempotence) and an existing name has its directory
removed, after which the name no longer appears in `list_snapshots`. -/
theorem C9_delete_snapshot (st : Subject) (snapshot : String) :
    (Subject.delete_snapshot st snapshot).1 = true ∧
    (Subject.delete_snapshot st snapshot).2.snapshots =
      st.snapshots.filter (fun s => s ≠ snapshot) ∧
    snapshot ∉ Subject.list_snapshots (Subject.delete_snapshot st snapshot).2 := by
  by_cases h : snapshot ∈ st.snapshots
  · refine ⟨by simp [Subject.delete_snapshot, h], by simp [Subject.delete_snapshot, h], ?_⟩
    simp [Subject.delete_snapshot, h, Subject.list_snapshots, List.mem_filter]
  · have hd : Subject.delete_snapshot st snapshot = (true, st) := by
      simp [Subject.delete_snapshot, h]
    refine ⟨by rw [hd], ?_, ?_⟩
    · rw [hd]
      exact (List.filter_eq_self.mpr
        (fun a ha => by
          simp only [decide_eq_true_eq]
          intro heq
          exact h (heq ▸ ha))).symm
    · rw [hd]
      simpa [Subject.list_snapshots] using h

/-- C10: a non-partitioned append against an item whose directory glob finds no
parquet files raises the uncaught index error while selecting the accumulation
file, and persists nothing. -/
theorem C10_append_no_files (st : Subject) (item : String) (df : DataFrame)
    (sortArg : Option String)
    (hp : st.partition_on = none) (hf : itemFiles st item = []) :
    Subject.append st item df sortArg = .error .IndexError ∧
    stateAfter st (Subject.append st item df sortArg) = st := by
  have he : Subject.append st item df sortArg = .error .IndexError := by
    simp [Subject.append, hp, hf, Bind.bind, Except.bind]
  exact ⟨he, by simp [stateAfter, he]⟩

/-- Witness for C10 at a concrete never-written item. -/
theorem C10_witness :
    Subject.append ⟨[], [], none, none, none⟩ "it" ⟨[("a", .Int64)], []⟩ none =
      .error .IndexError ∧
    stateAfter ⟨[], [], none, none, none⟩
      (Subject.append ⟨[], [], none, none, none⟩ "it" ⟨[("a", .Int64)], []⟩ none) =
      ⟨[], [], none, none, none⟩ :=
  C10_append_no_files ⟨[], [], none, none, none⟩ "it" ⟨[("a", .Int64)], []⟩ none rfl rfl

/-- C2: writing an item that already exists with `overwrite` false raises the
already-exists error, and the raise happens before any file is touched, so the
on-disk state is unchanged. -/
theorem C2_write_existing (st : Subject) (item : String) (df : DataFrame)
    (sortArg : Option String) (schemaArg : Option (List (String × PolarsType)))
    (h : itemExists st item = true) :
    Subject.write st item df false sortArg schemaArg = .error .AlreadyExistsError ∧
    stateAfter st (Subject.write st item df false sortArg schemaArg) = st := by
  have he : Subject.write st item df false sortArg schemaArg =
      .error .AlreadyExistsError := by
    simp [Subject.write, h]
  exact ⟨he, by simp [stateAfter, he]⟩

/-- Witness for C2 at a concrete existing item. -/
theorem C2_witness :
    Subject.write ⟨[("it", [("00000000.parquet", ⟨[("a", .Int64)], [[.int 1]]⟩)])],
        [], none, none, none⟩ "it" ⟨[("a", .Int64)], [[.int 2]]⟩ false none none =
      .error .AlreadyExistsError ∧
    stateAfter ⟨[("it", [("00000000.parquet", ⟨[("a", .Int64)], [[.int 1]]⟩)])],
        [], none, none, none⟩
      (Subject.write ⟨[("it", [("00000000.parquet", ⟨[("a", .Int64)], [[.int 1]]⟩)])],
          [], none, none, none⟩ "it" ⟨[("a", .Int64)], [[.int 2]]⟩ false none none) =
      ⟨[("it", [("00000000.parquet", ⟨[("a", .Int64)], [[.int 1]]⟩)])],
        [], none, none, none⟩ :=
  C2_write_existing _ "it" ⟨[("a", .Int64)], [[.int 2]]⟩ none none rfl

/-- Renaming a column type in place leaves the column-name list unchanged. -/
theorem castColumn_columnNames (df : DataFrame) (c : String) (dt : PolarsType) :
    (df.castColumn c dt).columnNames = df.columnNames := by
  simp only [DataFrame.castColumn, DataFrame.columnNames, List.map_map]
  apply List.map_congr_left
  intro p _
  by_cases h : p.1 = c <;> simp [h]

/-- Appending a typed-null column appends its name. -/
theorem withNullColumn_columnNames (df : DataFrame) (c : String) (dt : PolarsType) :
    (df.withNullColumn c dt).columnNames = df.columnNames ++ [c] := by
  simp [DataFrame.withNullColumn, DataFrame.columnNames]

/-- The empty schema applies as the identity. -/
theorem apply_schema_nil (df : DataFrame) : apply_schema [] df = df := rfl

/-- Unfolding one step of the schema-enforcement loop. -/
theorem apply_schema_cons (p : String × PolarsType) (s : List (String × PolarsType))
    (df : DataFrame) :
    apply_schema (p :: s) df =
      apply_schema s
        (if p.1 ∈ df.columnNames then df.castColumn p.1 p.2
         else df.withNullColumn p.1 p.2) := rfl

/-- Filtering non-membership is unaffected by growing the ambient list with a
name that does not occur in the filtered list. -/
theorem filter_not_mem_snoc (l names : List String) (c : String) (hc : c ∉ l) :
    l.filter (fun x => decide (x ∉ names ++ [c])) =
      l.filter (fun x => decide (x ∉ names)) := by
  apply List.filter_congr
  intro x hx
  have hxc : x ≠ c := fun h => hc (h ▸ hx)
  simp [List.mem_append, hxc]

/-- Applying a schema with distinct keys yields exactly the input columns
followed by the declared columns that were absent from the input. -/
theorem colNames_apply_schema (s : List (String × PolarsType)) (df : DataFrame)
    (hnd : (s.map Prod.fst).Nodup) :
    (apply_schema s df).columnNames =
      df.columnNames ++ (s.map Prod.fst).filter (fun c => decide (c ∉ df.columnNames)) := by
  induction s generalizing df with
  | nil => simp [apply_schema_nil]
  | cons p t ih =>
      simp only [List.map_cons, List.nodup_cons] at hnd
      obtain ⟨hc, ht⟩ := hnd
      rw [apply_schema_cons]
      by_cases hmem : p.1 ∈ df.columnNames
      · rw [if_pos hmem]
        rw [ih _ ht, castColumn_columnNames]
        simp [hmem]
      · rw [if_neg hmem]
        rw [ih _ ht, withNullColumn_columnNames]
        rw [List.map_cons, List.filter_cons_of_pos (by simpa using hmem)]
        rw [filter_not_mem_snoc _ _ _ hc]
        simp

/-- Association lookup hits a matching head. -/
theorem lookup_cons_hit (k : String) (v : PolarsType) (t : List (String × PolarsType)) :
    List.lookup k ((k, v) :: t) = some v := by
  simp [List.lookup]

/-- Association lookup skips a non-matching head. -/
theorem lookup_cons_miss (c k : String) (h : ¬ c = k) (v : PolarsType)
    (t : List (String × PolarsType)) :
    List.lookup c ((k, v) :: t) = List.lookup c t := by
  have hb : (c == k) = false := beq_false_of_ne h
  simp [List.lookup, hb]

/-- One step of the in-place retyping map of `castColumn`. -/
theorem map_retype_cons (c : String) (dt : PolarsType) (k : String) (v : PolarsType)
    (t : List (String × PolarsType)) :
    ((k, v) :: t).map (fun p => if p.1 = c then (p.1, dt) else p) =
      (if k = c then (k, dt) else (k, v)) ::
        t.map (fun p => if p.1 = c then (p.1, dt) else p) := by
  simp

/-- After retyping column `c`, looking `c` up yields the new type (when the
column exists). -/
theorem lookup_retype_self (l : List (String × PolarsType)) (c : String) (dt : PolarsType)
    (h : c ∈ l.map Prod.fst) :
    (l.map (fun p => if p.1 = c then (p.1, dt) else p)).lookup c = some dt := by
  induction l with
  | nil => simp at h
  | cons p t ih =>
      obtain ⟨k, v⟩ := p
      rw [map_retype_cons]
      by_cases hp : k = c
      · subst hp
        rw [if_pos rfl, lookup_cons_hit]
      · rw [if_neg hp, lookup_cons_miss c k (fun e => hp e.symm)]
        have h2 : c ∈ t.map Prod.fst := by
          simp only [List.map_cons, List.mem_cons] at h
          rcases h with h3 | h3
          · exact absurd h3.symm hp
          · exact h3
        exact ih h2

/-- Retyping column `c` does not disturb lookups of other columns. -/
theorem lookup_retype_ne (l : List (String × PolarsType)) (c c2 : String) (dt : PolarsType)
    (h : c2 ≠ c) :
    (l.map (fun p => if p.1 = c then (p.1, dt) else p)).lookup c2 = l.lookup c2 := by
  induction l with
  | nil => rfl
  | cons p t ih =>
      obtain ⟨k, v⟩ := p
      rw [map_retype_cons]
      by_cases hc2 : c2 = k
      · have hkc : ¬ k = c := fun e => h (hc2.trans e)
        rw [if_neg hkc, hc2, lookup_cons_hit, lookup_cons_hit]
      · rw [lookup_cons_miss c2 k hc2]
        by_cases hp : k = c
        · rw [if_pos hp, lookup_cons_miss c2 k hc2]
          exact ih
        · rw [if_neg hp, lookup_cons_miss c2 k hc2]
          exact ih

/-- Lookup of a name that is no key of the association list fails. -/
theorem lookup_not_mem_none (l : List (String × PolarsType)) (c : String)
    (h : c ∉ l.map Prod.fst) : l.lookup c = none := by
  induction l with
  | nil => rfl
  | cons p t ih =>
      obtain ⟨k, v⟩ := p
      have h1 : ¬ c = k := fun e => h (by simp [e])
      have h2 : c ∉ t.map Prod.fst := fun e => h (by simp [e])
      rw [lookup_cons_miss c k h1]
      exact ih h2

/-- Schema application does not disturb the header of a column that the schema
does not declare. -/
theorem lookup_apply_schema_notin (s : List (String × PolarsType)) (df : DataFrame)
    (c : String) (hc : c ∉ s.map Prod.fst) :
    (apply_schema s df).cols.lookup c = df.cols.lookup c := by
  induction s generalizing df with
  | nil => rfl
  | cons p t ih =>
      have h1 : c ≠ p.1 := fun e => hc (by simp [e])
      have h2 : c ∉ t.map Prod.fst := fun e => hc (by simp [e])
      rw [apply_schema_cons]
      by_cases hmem : p.1 ∈ df.columnNames
      · rw [if_pos hmem, ih _ h2]
        exact lookup_retype_ne df.cols p.1 c p.2 h1
      · rw [if_neg hmem, ih _ h2]
        show (df.cols ++ [(p.1, p.2)]).lookup c = df.cols.lookup c
        rw [List.lookup_append]
        have hsingle : List.lookup c [(p.1, p.2)] = none := by
          rw [lookup_cons_miss c p.1 h1]
          rfl
        rw [hsingle, Option.or_none]

/-- Every column a (distinct-keyed) schema declares ends up with exactly its
declared type after schema application. -/
theorem lookup_apply_schema (s : List (String × PolarsType)) (df : DataFrame)
    (hnd : (s.map Prod.fst).Nodup) (c : String) (dt : PolarsType)
    (hmem : (c, dt) ∈ s) :
    (apply_schema s df).cols.lookup c = some dt := by
  induction s generalizing df with
  | nil => cases hmem
  | cons p t ih =>
      simp only [List.map_cons, List.nodup_cons] at hnd
      obtain ⟨hc, ht⟩ := hnd
      rw [apply_schema_cons]
      rcases List.mem_cons.mp hmem with heq | htail
      · subst heq
        by_cases hdf : c ∈ df.columnNames
        · rw [if_pos hdf, lookup_apply_schema_notin t _ c hc]
          exact lookup_retype_self df.cols c dt hdf
        · rw [if_neg hdf, lookup_apply_schema_notin t _ c hc]
          show (df.cols ++ [(c, dt)]).lookup c = some dt
          rw [List.lookup_append, lookup_not_mem_none df.cols c hdf]
          rw [lookup_cons_hit]
          rfl
      · exact ih _ ht htail

/-- Schema application extends every row by exactly one null per declared
column absent from the input (and touches no existing cell). -/
theorem rows_apply_schema (s : List (String × PolarsType)) (df : DataFrame)
    (hnd : (s.map Prod.fst).Nodup) :
    (apply_schema s df).rows =
      df.rows.map (fun r =>
        r ++ List.replicate
          ((s.map Prod.fst).filter (fun c => decide (c ∉ df.columnNames))).length Val.null) := by
  induction s generalizing df with
  | nil =>
      simp [apply_schema_nil]
  | cons p t ih =>
      simp only [List.map_cons, List.nodup_cons] at hnd
      obtain ⟨hc, ht⟩ := hnd
      rw [apply_schema_cons]
      by_cases hmem : p.1 ∈ df.columnNames
      · rw [if_pos hmem, ih _ ht]
        have hrows : (df.castColumn p.1 p.2).rows = df.rows := rfl
        rw [hrows, castColumn_columnNames]
        rw [List.map_cons, List.filter_cons_of_neg (by simpa using hmem)]
      · rw [if_neg hmem, ih _ ht]
        have hrows : (df.withNullColumn p.1 p.2).rows =
            df.rows.map (fun r => r ++ [Val.null]) := rfl
        rw [hrows, withNullColumn_columnNames, List.map_map]
        rw [List.map_cons, List.filter_cons_of_pos (by simpa using hmem)]
        rw [filter_not_mem_snoc _ _ _ hc]
        apply List.map_congr_left
        intro r _
        simp only [Function.comp_apply, List.append_assoc, List.length_cons,
          List.replicate_succ]
        rfl

/-- C1 (amended): schema enforcement on write adds every declared column absent
from the input as a typed-null column, casts every present declared column to
its declared type (so each declared column's on-disk type is the declared one),
and an explicit `schema` argument takes precedence over the declared subject
schema — but extra input columns outside the schema are preserved, so the
output column set is the input columns plus the declared columns, not the
schema columns alone. -/
theorem C1_schema_enforcement (s : List (String × PolarsType)) (df : DataFrame)
    (st : Subject) (item : String) (sE : List (String × PolarsType))
    (hnd : (s.map Prod.fst).Nodup)
    (hex : itemExists st item = false) (hso : st.sort_on = none)
    (hpart : st.partition_on = none) (hsE : sE ≠ []) :
    (apply_schema s df).columnNames =
      df.columnNames ++ (s.map Prod.fst).filter (fun c => decide (c ∉ df.columnNames)) ∧
    (∀ c dt, (c, dt) ∈ s → (apply_schema s df).cols.lookup c = some dt) ∧
    (apply_schema s df).rows =
      df.rows.map (fun r =>
        r ++ List.replicate
          ((s.map Prod.fst).filter (fun c => decide (c ∉ df.columnNames))).length Val.null) ∧
    Subject.write st item df false none none =
      .ok (setItem st item [("00000000.parquet", effectiveFrame st df)]) ∧
    Subject.write st item df false none (some sE) =
      .ok (setItem st item [("00000000.parquet", apply_schema sE df)]) := by
  refine ⟨colNames_apply_schema s df hnd,
          fun c dt hm => lookup_apply_schema s df hnd c dt hm,
          rows_apply_schema s df hnd, ?_, ?_⟩
  · by_cases hs : read_subject_schema st = []
    · simp [Subject.write, hex, hso, hpart, effectiveFrame, hs,
            Bind.bind, Except.bind, pure, Except.pure]
    · simp [Subject.write, hex, hso, hpart, effectiveFrame, hs,
            Bind.bind, Except.bind, pure, Except.pure]
  · simp [Subject.write, hex, hso, hpart, hsE,
          Bind.bind, Except.bind, pure, Except.pure]

/-- Witness for C1 at a concrete subject with declared schema `{a: Int64}`, an
input frame with columns `a` (Int32) and `b` (Utf8), and an explicit
one-column schema argument. -/
theorem C1_witness :
    (apply_schema [("a", .Int64)]
        ⟨[("a", .Int32), ("b", .Utf8)], [[.int 1, .str "x"]]⟩).columnNames =
      DataFrame.columnNames ⟨[("a", .Int32), ("b", .Utf8)], [[.int 1, .str "x"]]⟩ ++
        ([("a", PolarsType.Int64)].map Prod.fst).filter
          (fun c => decide (c ∉ DataFrame.columnNames
            ⟨[("a", .Int32), ("b", .Utf8)], [[.int 1, .str "x"]]⟩)) ∧
    (∀ c dt, (c, dt) ∈ [("a", PolarsType.Int64)] →
      (apply_schema [("a", .Int64)]
        ⟨[("a", .Int32), ("b", .Utf8)], [[.int 1, .str "x"]]⟩).cols.lookup c = some dt) ∧
    (apply_schema [("a", .Int64)]
        ⟨[("a", .Int32), ("b", .Utf8)], [[.int 1, .str "x"]]⟩).rows =
      [[Val.int 1, Val.str "x"]].map (fun r =>
        r ++ List.replicate
          (([("a", PolarsType.Int64)].map Prod.fst).filter
            (fun c => decide (c ∉ DataFrame.columnNames
              ⟨[("a", .Int32), ("b", .Utf8)], [[.int 1, .str "x"]]⟩))).length Val.null) ∧
    Subject.write ⟨[], [], some [("a", .Int64)], none, none⟩ "it"
        ⟨[("a", .Int32), ("b", .Utf8)], [[.int 1, .str "x"]]⟩ false none none =
      .ok (setItem ⟨[], [], some [("a", .Int64)], none, none⟩ "it"
        [("00000000.parquet",
          effectiveFrame ⟨[], [], some [("a", .Int64)], none, none⟩
            ⟨[("a", .Int32), ("b", .Utf8)], [[.int 1, .str "x"]]⟩)]) ∧
    Subject.write ⟨[], [], some [("a", .Int64)], none, none⟩ "it"
        ⟨[("a", .Int32), ("b", .Utf8)], [[.int 1, .str "x"]]⟩ false none
        (some [("b", .Utf8)]) =
      .ok (setItem ⟨[], [], some [("a", .Int64)], none, none⟩ "it"
        [("00000000.parquet",
          apply_schema [("b", .Utf8)]
            ⟨[("a", .Int32), ("b", .Utf8)], [[.int 1, .str "x"]]⟩)]) :=
  C1_schema_enforcement [("a", .Int64)]
    ⟨[("a", .Int32), ("b", .Utf8)], [[.int 1, .str "x"]]⟩
    ⟨[], [], some [("a", .Int64)], none, none⟩ "it" [("b", .Utf8)]
    (by decide) rfl rfl rfl (by decide)

/-- Counterexample for C1 as stated: under declared schema `{a: Int64}`, a
write whose input carries the extra column `b` produces the file columns
`[a, b]`, not the schema column set `[a]`. -/
theorem C1_counterexample :
    writtenFileCols
        (Subject.write ⟨[], [], some [("a", .Int64)], none, none⟩ "it"
          ⟨[("a", .Int32), ("b", .Utf8)], [[.int 1, .str "x"]]⟩ false none none)
        "it" "00000000.parquet" = some ["a", "b"] ∧
    (["a", "b"] : List String) ≠ ["a"] := by
  exact ⟨by decide, by decide⟩

/-- C4 (amended): every partitioned append whose input lacks declared partition
columns fails with the partition-column error naming exactly the absent
columns; a partitioned write fails the same way only when a partition column is
still absent AFTER schema enforcement — a missing partition column that the
effective schema declares is materialized as a typed-null column and the write
succeeds instead of failing. -/
theorem C4_partition_check (st : Subject) (item : String) (df : DataFrame)
    (sortArg : Option String) (ps : List String)
    (hp : st.partition_on = some ps) :
    (ps.filter (fun c => decide (c ∉ df.columnNames)) ≠ [] →
      Subject.append st item df sortArg =
        .error (.PartitionColumnMissingError
          (ps.filter (fun c => decide (c ∉ df.columnNames))))) ∧
    (itemExists st item = false → st.sort_on = none →
      ((ps.filter (fun c => decide (c ∉ (effectiveFrame st df).columnNames)) ≠ [] →
        Subject.write st item df false none none =
          .error (.PartitionColumnMissingError
            (ps.filter (fun c => decide (c ∉ (effectiveFrame st df).columnNames))))) ∧
       (ps.filter (fun c => decide (c ∉ (effectiveFrame st df).columnNames)) = [] →
        Subject.write st item df false none none =
          .ok (setItem st item (hiveFiles ps (effectiveFrame st df)))))) := by
  constructor
  · intro hm
    simp only [Subject.append, hp]
    rw [if_pos hm]
  · intro hex hso
    constructor <;> intro hm <;> by_cases hs : read_subject_schema st = [] <;>
      simp only [effectiveFrame, hs, if_pos, if_neg, ne_eq, not_true_eq_false,
        not_false_eq_true, if_true, if_false] at hm ⊢ <;>
      simp [Subject.write, hex, hso, hp, hs, hm, Bind.bind, Except.bind, pure,
        Except.pure] <;>
      simpa using hm

/-- Witness for C4 at a concrete partitioned subject with no declared schema:
both append and write reject an input lacking the partition column `p`. -/
theorem C4_witness :
    ((["p"].filter (fun c => decide (c ∉ DataFrame.columnNames
        ⟨[("x", .Int64)], [[.int 1]]⟩))) ≠ [] →
      Subject.append ⟨[], [], none, some ["p"], none⟩ "it"
          ⟨[("x", .Int64)], [[.int 1]]⟩ none =
        .error (.PartitionColumnMissingError
          (["p"].filter (fun c => decide (c ∉ DataFrame.columnNames
            ⟨[("x", .Int64)], [[.int 1]]⟩))))) ∧
    (itemExists ⟨[], [], none, some ["p"], none⟩ "it" = false →
      Subject.sort_on ⟨[], [], none, some ["p"], none⟩ = none →
      (((["p"].filter (fun c => decide (c ∉ (effectiveFrame
          ⟨[], [], none, some ["p"], none⟩
          ⟨[("x", .Int64)], [[.int 1]]⟩).columnNames))) ≠ [] →
        Subject.write ⟨[], [], none, some ["p"], none⟩ "it"
            ⟨[("x", .Int64)], [[.int 1]]⟩ false none none =
          .error (.PartitionColumnMissingError
            (["p"].filter (fun c => decide (c ∉ (effectiveFrame
              ⟨[], [], none, some ["p"], none⟩
              ⟨[("x", .Int64)], [[.int 1]]⟩).columnNames))))) ∧
       ((["p"].filter (fun c => decide (c ∉ (effectiveFrame
          ⟨[], [], none, some ["p"], none⟩
          ⟨[("x", .Int64)], [[.int 1]]⟩).columnNames))) = [] →
        Subject.write ⟨[], [], none, some ["p"], none⟩ "it"
            ⟨[("x", .Int64)], [[.int 1]]⟩ false none none =
          .ok (setItem ⟨[], [], none, some ["p"], none⟩ "it"
            (hiveFiles ["p"] (effectiveFrame ⟨[], [], none, some ["p"], none⟩
              ⟨[("x", .Int64)], [[.int 1]]⟩)))))) :=
  C4_partition_check ⟨[], [], none, some ["p"], none⟩ "it"
    ⟨[("x", .Int64)], [[.int 1]]⟩ none ["p"] rfl

/-- Counterexample for C4 as stated: when the declared schema contains the
partition column `p`, a write whose input lacks `p` SUCCEEDS (the column having
been materialized as typed nulls by schema application before the partition
check), while the same input is rejected by append — so the failure is not
universal across writes. -/
theorem C4_counterexample :
    (Subject.write ⟨[], [], some [("p", .Int64)], some ["p"], none⟩ "it"
        ⟨[("x", .Int64)], [[.int 1]]⟩ false none none).isOk = true ∧
    Subject.append ⟨[], [], some [("p", .Int64)], some ["p"], none⟩ "it"
        ⟨[("x", .Int64)], [[.int 1]]⟩ none =
      .error (.PartitionColumnMissingError ["p"]) := by
  exact ⟨by decide, by decide⟩

/-- C3: under a subject with no partition key and declared sort column `k`,
writing rows A and then appending rows B concatenates the accumulated file with
the new rows, re-sorts and rewrites it, so that materializing the item and
sorting by `k` yields exactly the same row multiset as sorting A ++ B directly
(reads are pure, so repeated reads return the same result). -/
theorem C3_append_concat_sort (A B : List (Int × Int)) :
    ∃ st1 st2 d d2,
      Subject.write subjC3 "it" (rowDf A) false none none = .ok st1 ∧
      Subject.append st1 "it" (rowDf B) none = .ok st2 ∧
      (materializeItem st2 "it").sortBy "k" = .ok d ∧
      (rowDf (A ++ B)).sortBy "k" = .ok d2 ∧
      (d.rows : Multiset (List Val)) = (d2.rows : Multiset (List Val)) := by
  refine ⟨_, _, _, _, rfl, rfl, rfl, rfl, ?_⟩
  refine Multiset.coe_eq_coe.mpr ?_
  show List.Perm _ _
  simp only [rowDf, List.map_append, List.nil_append]
  refine ((List.perm_insertionSort _ _).trans ?_).trans
    (List.perm_insertionSort _ _).symm
  refine (List.perm_insertionSort _ _).trans ?_
  exact (List.perm_insertionSort _ _).append_right _
